import Mathlib

/-!
Verification development for the GNSS ephemeris and clock interpolation engine
of the s2e spacecraft simulator (`gnss_satellites.cpp`).

The C++ code is embedded shallowly:

* machine `double` arithmetic is modelled by exact rational arithmetic (`ℚ`);
  the transcendental library calls (`std::sqrt`, `std::sin`, `std::cos` through
  `CalcAngleTwoVectors_rad`) are kept abstract as function parameters, since no
  property below depends on their values;
* `std::vector::at` (which throws on an out-of-range index) is modelled by
  `Option`-returning indexing where a claim can reach the out-of-range branch;
  interior accesses that the surrounding code keeps in bounds use `List.getD`;
* C++ `int` satellite identifiers are modelled by `ℤ`; loop indices that the
  code keeps non-negative are modelled by `ℕ`.
-/

namespace S2E

/-- Componentwise rational 3-vector, modelling `libra::Vector<3>`. -/
structure Vec3 where
  x : ℚ
  y : ℚ
  z : ℚ
deriving DecidableEq

/-- The zero vector `libra::Vector<3>(0.0)`. -/
def vzero : Vec3 := ⟨0, 0, 0⟩

/-- Componentwise vector subtraction, used for `gnss_position - rec_position`. -/
def vsub (a b : Vec3) : Vec3 := ⟨a.x - b.x, a.y - b.y, a.z - b.z⟩

/-! ### Constellation size constants (gnss_satellites.cpp lines 132-144) -/

def gps_sat_num : ℤ := 32
def glonass_sat_num : ℤ := 26
def galileo_sat_num : ℤ := 36
def beidou_sat_num : ℤ := 16
def qzss_sat_num : ℤ := 7

def gps_index_bias : ℤ := -1
def glonass_index_bias : ℤ := gps_index_bias + gps_sat_num
def galileo_index_bias : ℤ := glonass_index_bias + glonass_sat_num
def beidou_index_bias : ℤ := galileo_index_bias + galileo_sat_num
def qzss_index_bias : ℤ := beidou_index_bias + beidou_sat_num

/-- Total number of GNSS satellites (`all_sat_num_` = 32+26+36+16+7 = 117). -/
def all_sat_num : ℤ :=
  gps_sat_num + glonass_sat_num + galileo_sat_num + beidou_sat_num + qzss_sat_num

/-- `all_sat_num_` as a natural number, for vector sizes. -/
def all_sat_num_nat : ℕ := 117

def INT32_MAX : ℤ := 2147483647

/-! ### Constellation index (GnssSatelliteBase::GetIndexFromId / GetIdFromIndex) -/

/-- Numeric value of a decimal digit character. -/
def charToDigit (c : Char) : ℕ := c.toNat - '0'.toNat

/-- Accumulate the value of the leading decimal digits, stopping at the first
non-digit, as `std::stoi` does after the optional sign. -/
def digitsValue : List Char → ℕ → ℕ
  | [], acc => acc
  | c :: rest, acc =>
    if c.isDigit then digitsValue rest (10 * acc + charToDigit c) else acc

/-- Models `std::stoi` on the digit strings this code feeds it (an optional
sign followed by decimal digits); the throwing cases (no digits at all) are
outside every use below and return 0 here. -/
def stoi (s : List Char) : ℤ :=
  match s with
  | '-' :: rest => -(digitsValue rest 0 : ℤ)
  | '+' :: rest => (digitsValue rest 0 : ℤ)
  | _ => (digitsValue s 0 : ℤ)

/-- Decimal digits of a natural number, as `std::to_string` produces them. -/
def natToChars (n : ℕ) : List Char := Nat.toDigits 10 n

/-- Models `std::to_string` on `int`. -/
def intToChars (i : ℤ) : List Char :=
  if i < 0 then '-' :: natToChars i.natAbs else natToChars i.natAbs

/-- GnssSatelliteBase::GetIndexFromId (lines 268-302): constellation tag plus
number to flat index.  The identifier is a character list; an unrecognized tag
yields `INT32_MAX`.  The `at(1)` call of the `P`-prefixed branch throws on the
one-character string "P"; that unreachable case is folded into the
unrecognized-tag result here. -/
def GetIndexFromId (sat_num : List Char) : ℤ :=
  match sat_num with
  | [] => INT32_MAX
  | 'P' :: rest =>
    match rest with
    | 'G' :: _ => stoi (sat_num.drop 2) + gps_index_bias
    | 'R' :: _ => stoi (sat_num.drop 2) + glonass_index_bias
    | 'E' :: _ => stoi (sat_num.drop 2) + galileo_index_bias
    | 'C' :: _ => stoi (sat_num.drop 2) + beidou_index_bias
    | 'J' :: _ => stoi (sat_num.drop 2) + qzss_index_bias
    | _ => INT32_MAX
  | c :: _ =>
    if c = 'G' then stoi (sat_num.drop 1) + gps_index_bias
    else if c = 'R' then stoi (sat_num.drop 1) + glonass_index_bias
    else if c = 'E' then stoi (sat_num.drop 1) + galileo_index_bias
    else if c = 'C' then stoi (sat_num.drop 1) + beidou_index_bias
    else if c = 'J' then stoi (sat_num.drop 1) + qzss_index_bias
    else INT32_MAX

/-- GnssSatelliteBase::GetIdFromIndex (lines 304-329): flat index back to a
constellation-tagged identifier, zero-padding numbers below 10. -/
def GetIdFromIndex (index : ℤ) : List Char :=
  if index < glonass_index_bias then
    'G' :: ((if index - gps_index_bias < 10 then ['0'] else []) ++
      intToChars (index - gps_index_bias))
  else if index < galileo_index_bias then
    'R' :: ((if index - glonass_index_bias < 10 then ['0'] else []) ++
      intToChars (index - glonass_index_bias))
  else if index < beidou_index_bias then
    'E' :: ((if index - galileo_index_bias < 10 then ['0'] else []) ++
      intToChars (index - galileo_index_bias))
  else if index < qzss_index_bias then
    'C' :: ((if index - beidou_index_bias < 10 then ['0'] else []) ++
      intToChars (index - beidou_index_bias))
  else
    'J' :: ((if index - qzss_index_bias < 10 then ['0'] else []) ++
      intToChars (index - qzss_index_bias))

/-- A well-formed two-digit satellite number as it appears in product files:
"01" up to "99". -/
def twoDigitChars (n : ℕ) : List Char :=
  (if n < 10 then ['0'] else []) ++ natToChars n

/-! ### Time series store and the ingestion merge step

`GnssSatellitePosition::Initialize` / `GnssSatelliteClock::Initialize` parse
product files and push one `(timestamp, value)` sample at a time onto the
per-satellite parallel vectors.  The per-sample merge step (lines 460-468 for
position, 707-713 for the sp3 clock branch, 764-773 for the .clk30s branch) is
embedded below; the surrounding text parsing only decides which samples reach
it and in which order, so ingestion of one satellite's samples is the fold of
the merge step over that sample stream. -/

/-- One satellite's time series for one track: the per-satellite slice of
`unix_time_list` and of the parallel value vector(s). -/
structure TimeSeries (α : Type) where
  unix_time_list : List ℚ
  values : List α
deriving DecidableEq

/-- The ingestion merge step: if the store is non-empty and the new timestamp
is within `threshold` of the last stored timestamp, the new sample overwrites
the back of every parallel vector; otherwise it is appended. -/
def mergeSample {α : Type} (threshold : ℚ) (ts : TimeSeries α) (t : ℚ) (v : α) :
    TimeSeries α :=
  match ts.unix_time_list.getLast? with
  | some back =>
    if |t - back| < threshold then
      ⟨ts.unix_time_list.dropLast ++ [t], ts.values.dropLast ++ [v]⟩
    else ⟨ts.unix_time_list ++ [t], ts.values ++ [v]⟩
  | none => ⟨ts.unix_time_list ++ [t], ts.values ++ [v]⟩

/-- The merge step of `GnssSatellitePosition::Initialize` (lines 460-468):
threshold 1 second; the value is the (ecef, eci) position pair. -/
def positionInitializeMerge (ts : TimeSeries (Vec3 × Vec3)) (t : ℚ)
    (v : Vec3 × Vec3) : TimeSeries (Vec3 × Vec3) :=
  mergeSample 1 ts t v

/-- The merge step of the `.sp3` branch of `GnssSatelliteClock::Initialize`
(lines 707-713): threshold 1 second; the value is the clock bias in meters. -/
def clockSp3InitializeMerge (ts : TimeSeries ℚ) (t : ℚ) (v : ℚ) : TimeSeries ℚ :=
  mergeSample 1 ts t v

/-- The merge step of the `.clk30s` branch of `GnssSatelliteClock::Initialize`
(lines 764-773): threshold 1e-4 seconds, and on append `time_interval_` is
lowered to the gap just created. -/
def clockClk30sMerge (ts : TimeSeries ℚ) (time_interval : ℚ) (t : ℚ) (v : ℚ) :
    TimeSeries ℚ × ℚ :=
  match ts.unix_time_list.getLast? with
  | some back =>
    if |t - back| < 1 / 10000 then
      (⟨ts.unix_time_list.dropLast ++ [t], ts.values.dropLast ++ [v]⟩, time_interval)
    else
      (⟨ts.unix_time_list ++ [t], ts.values ++ [v]⟩, min time_interval (t - back))
  | none => (⟨ts.unix_time_list ++ [t], ts.values ++ [v]⟩, time_interval)

/-- Ingestion of one satellite's parsed sample stream, in file order, starting
from the empty store that `Initialize` resizes into existence. -/
def ingestSamples {α : Type} (threshold : ℚ) (samples : List (ℚ × α)) :
    TimeSeries α :=
  samples.foldl (fun ts tv => mergeSample threshold ts tv.1 tv.2) ⟨[], []⟩

/-! ### Interpolation windows (GnssSatellitePosition / GnssSatelliteClock)

The `SetUp` / `Update` loop bodies are per-satellite; they are embedded as
per-satellite state transformers.  `interpolation_number_`, a positive
configuration integer, is modelled by `ℕ`. -/

/-- One satellite's stored position time series: the per-satellite slices of
`unix_time_list`, `time_series_position_ecef_m_`, `time_series_position_eci_m_`
(parallel lists, appended in lockstep by `Initialize`). -/
structure SatPositionSeries where
  unixTimeList : List ℚ
  ecefSeries : List Vec3
  eciSeries : List Vec3
deriving DecidableEq

/-- One satellite's stored clock time series. -/
structure SatClockSeries where
  unixTimeList : List ℚ
  clockSeries : List ℚ
deriving DecidableEq

/-- One satellite's slice of the mutable `GnssSatellitePosition` state:
`nearest_index_`, `time_period_list_`, `ecef_`, `eci_`, `validate_`,
`position_ecef_m_`, `position_eci_m_`. -/
structure PosState where
  nearestIndex : ℕ
  timePeriodList : List ℚ
  ecefWindow : List Vec3
  eciWindow : List Vec3
  valid : Bool
  positionEcef : Vec3
  positionEci : Vec3
deriving DecidableEq

/-- One satellite's slice of the mutable `GnssSatelliteClock` state. -/
structure ClockState where
  nearestIndex : ℕ
  timePeriodList : List ℚ
  clockBiasWindow : List ℚ
  valid : Bool
  clockOffset : ℚ
deriving DecidableEq

/-- `std::lower_bound` on a sorted timestamp vector: the index of the first
element not less than `t`. -/
def lowerBoundIndex (l : List ℚ) (t : ℚ) : ℕ :=
  (l.takeWhile (fun x => decide (x < t))).length

/-- The window offsets `j` of the loop
`for (j = -interpolation_number_/2; j < (interpolation_number_+1)/2; ++j)`:
N consecutive integers starting at `-(N/2)`. -/
def windowJs (N : ℕ) : List ℤ :=
  (List.range N).map (fun k => (k : ℤ) - ((N / 2 : ℕ) : ℤ))

/-- The window build loop: for each offset `j`, keep sample `index + j` when
it is inside `[0, size)`, else `continue`. -/
def windowSlice {α : Type} (dflt : α) (l : List α) (index : ℕ) (N : ℕ)
    (size : ℕ) : List α :=
  (windowJs N).filterMap (fun j =>
    if 0 ≤ (index : ℤ) + j ∧ (index : ℤ) + j < (size : ℤ) then
      some (l.getD ((index : ℤ) + j).toNat dflt)
    else none)

/-- GnssSatelliteBase::LagrangeInterpolation (lines 253-266), the scalar
overload used for clock bias: all-rational, embedded exactly. -/
def LagrangeInterpolation (time_vector : List ℚ) (values : List ℚ) (time : ℚ) :
    ℚ :=
  (List.range time_vector.length).foldl
    (fun res i =>
      res + values.getD i 0 *
        ((List.range time_vector.length).foldl
          (fun l_i j =>
            if i = j then l_i
            else l_i * ((time - time_vector.getD j 0) /
              (time_vector.getD i 0 - time_vector.getD j 0))) 1)) 0

/-- The odd-window nearest-neighbor adjustment of `SetUp` (lines 504-507):
for odd N and a non-initial index, step back when the previous sample is
strictly closer to the query time. -/
def setUpAdjustIndex (N : ℕ) (times : List ℚ) (t : ℚ) (index : ℕ) : ℕ :=
  if N % 2 = 1 ∧ index ≠ 0 ∧
      |t - times.getD (index - 1) 0| < |t - times.getD index 0| then
    index - 1
  else index

/-- The per-satellite position state as `SetUp` leaves it on the
`validate = false` early exits: windows untouched (empty on a fresh object),
positions zeroed by the initial `assign`. -/
def emptyPosState (i : ℕ) : PosState :=
  ⟨i, [], [], [], false, vzero, vzero⟩

/-- The per-satellite position state right after the window build loop of
`SetUp` (lines 516-523) or of the `Update` advance branch (lines 570-582). -/
def builtPosState (N : ℕ) (series : SatPositionSeries) (index : ℕ) : PosState :=
  { nearestIndex := index,
    timePeriodList :=
      windowSlice 0 series.unixTimeList index N series.unixTimeList.length,
    ecefWindow :=
      windowSlice vzero series.ecefSeries index N series.unixTimeList.length,
    eciWindow :=
      windowSlice vzero series.eciSeries index N series.unixTimeList.length,
    valid := false,
    positionEcef := vzero,
    positionEci := vzero }

/-- The final validity checks and evaluation shared by `SetUp` (lines 510-545)
and `Update` (lines 585-612) of `GnssSatellitePosition`: the nearest-sample
distance check, the window population check, the window span check (slack 3),
then either the exact-sample branch (within 1e-4 s) or trigonometric
interpolation.  The checks are independent, so their outcome does not depend
on the order difference between `SetUp` and `Update`.  `trig` abstracts
`TrigonometricInterpolation`, whose real-sine values never matter below. -/
def finishPosState (N : ℕ) (time_interval : ℚ)
    (trig : List ℚ → List Vec3 → ℚ → Vec3) (series : SatPositionSeries)
    (st : PosState) (t : ℚ) : PosState :=
  if |t - series.unixTimeList.getD st.nearestIndex 0| > time_interval then
    ⟨st.nearestIndex, st.timePeriodList, st.ecefWindow, st.eciWindow, false,
      st.positionEcef, st.positionEci⟩
  else if st.timePeriodList.length ≠ N then
    ⟨st.nearestIndex, st.timePeriodList, st.ecefWindow, st.eciWindow, false,
      st.positionEcef, st.positionEci⟩
  else if st.timePeriodList.getLast?.getD 0 - st.timePeriodList.head?.getD 0 >
      time_interval * ((N : ℚ) - 1 + 3) + 1 / 10000 then
    ⟨st.nearestIndex, st.timePeriodList, st.ecefWindow, st.eciWindow, false,
      st.positionEcef, st.positionEci⟩
  else if |t - series.unixTimeList.getD st.nearestIndex 0| < 1 / 10000 then
    ⟨st.nearestIndex, st.timePeriodList, st.ecefWindow, st.eciWindow, true,
      series.ecefSeries.getD st.nearestIndex vzero,
      series.eciSeries.getD st.nearestIndex vzero⟩
  else
    ⟨st.nearestIndex, st.timePeriodList, st.ecefWindow, st.eciWindow, true,
      trig st.timePeriodList st.ecefWindow t,
      trig st.timePeriodList st.eciWindow t⟩

/-- GnssSatellitePosition::SetUp, loop body for one satellite
(lines 489-546). -/
def setUpSatPosition (N : ℕ) (time_interval : ℚ)
    (trig : List ℚ → List Vec3 → ℚ → Vec3) (series : SatPositionSeries)
    (t : ℚ) : PosState :=
  if series.unixTimeList.length = 0 then emptyPosState 0
  else if lowerBoundIndex series.unixTimeList t = series.unixTimeList.length then
    emptyPosState (lowerBoundIndex series.unixTimeList t)
  else if |t - series.unixTimeList.getD
      (setUpAdjustIndex N series.unixTimeList t
        (lowerBoundIndex series.unixTimeList t)) 0| > time_interval then
    emptyPosState
      (setUpAdjustIndex N series.unixTimeList t
        (lowerBoundIndex series.unixTimeList t))
  else
    finishPosState N time_interval trig series
      (builtPosState N series
        (setUpAdjustIndex N series.unixTimeList t
          (lowerBoundIndex series.unixTimeList t))) t

/-- A position state with only the validity flag cleared, as the `continue`
branches of `Update` leave it. -/
def invalidatePos (st : PosState) : PosState :=
  ⟨st.nearestIndex, st.timePeriodList, st.ecefWindow, st.eciWindow, false,
    st.positionEcef, st.positionEci⟩

/-- The position state after the `Update` advance branch (lines 567-582):
nearest index advanced, window rebuilt, everything else untouched. -/
def advancedPosState (N : ℕ) (series : SatPositionSeries) (index : ℕ)
    (st : PosState) : PosState :=
  ⟨index,
    windowSlice 0 series.unixTimeList index N series.unixTimeList.length,
    windowSlice vzero series.ecefSeries index N series.unixTimeList.length,
    windowSlice vzero series.eciSeries index N series.unixTimeList.length,
    st.valid, st.positionEcef, st.positionEci⟩

/-- GnssSatellitePosition::Update, loop body for one satellite
(lines 549-613): advance the cached nearest index by one when the next sample
is strictly closer, rebuilding the window, then re-run the validity checks. -/
def updateSatPosition (N : ℕ) (time_interval : ℚ)
    (trig : List ℚ → List Vec3 → ℚ → Vec3) (series : SatPositionSeries)
    (st : PosState) (t : ℚ) : PosState :=
  if series.unixTimeList.length = 0 then invalidatePos st
  else if st.nearestIndex = series.unixTimeList.length then invalidatePos st
  else
    finishPosState N time_interval trig series
      (if st.nearestIndex + 1 < series.unixTimeList.length ∧
          |t - series.unixTimeList.getD (st.nearestIndex + 1) 0| <
            |t - series.unixTimeList.getD st.nearestIndex 0| then
        advancedPosState N series (st.nearestIndex + 1) st
      else st) t

/-- The per-satellite clock state on the `validate = false` early exits of
`GnssSatelliteClock::SetUp`. -/
def emptyClockState (i : ℕ) : ClockState :=
  ⟨i, [], [], false, 0⟩

/-- The per-satellite clock state right after the window build loop of
`GnssSatelliteClock::SetUp` (lines 817-823) or of the `Update` advance branch
(lines 871-877). -/
def builtClockState (N : ℕ) (series : SatClockSeries) (index : ℕ) : ClockState :=
  { nearestIndex := index,
    timePeriodList :=
      windowSlice 0 series.unixTimeList index N series.unixTimeList.length,
    clockBiasWindow :=
      windowSlice 0 series.clockSeries index N series.unixTimeList.length,
    valid := false,
    clockOffset := 0 }

/-- The final validity checks and evaluation shared by `SetUp` (lines 811-842)
and `Update` (lines 880-905) of `GnssSatelliteClock`: window population,
nearest-sample distance, window span (no slack — stricter for clock bias),
then the exact-sample branch or Lagrange interpolation. -/
def finishClockState (N : ℕ) (time_interval : ℚ) (series : SatClockSeries)
    (st : ClockState) (t : ℚ) : ClockState :=
  if st.timePeriodList.length ≠ N then
    ⟨st.nearestIndex, st.timePeriodList, st.clockBiasWindow, false,
      st.clockOffset⟩
  else if |t - series.unixTimeList.getD st.nearestIndex 0| > time_interval then
    ⟨st.nearestIndex, st.timePeriodList, st.clockBiasWindow, false,
      st.clockOffset⟩
  else if st.timePeriodList.getLast?.getD 0 - st.timePeriodList.head?.getD 0 >
      time_interval * ((N : ℚ) - 1) + 1 / 10000 then
    ⟨st.nearestIndex, st.timePeriodList, st.clockBiasWindow, false,
      st.clockOffset⟩
  else if |t - series.unixTimeList.getD st.nearestIndex 0| < 1 / 10000 then
    ⟨st.nearestIndex, st.timePeriodList, st.clockBiasWindow, true,
      series.clockSeries.getD st.nearestIndex 0⟩
  else
    ⟨st.nearestIndex, st.timePeriodList, st.clockBiasWindow, true,
      LagrangeInterpolation st.timePeriodList st.clockBiasWindow t⟩

/-- GnssSatelliteClock::SetUp, loop body for one satellite (lines 790-843). -/
def setUpSatClock (N : ℕ) (time_interval : ℚ) (series : SatClockSeries)
    (t : ℚ) : ClockState :=
  if series.unixTimeList.length = 0 then emptyClockState 0
  else if lowerBoundIndex series.unixTimeList t = series.unixTimeList.length then
    emptyClockState (lowerBoundIndex series.unixTimeList t)
  else if |t - series.unixTimeList.getD
      (setUpAdjustIndex N series.unixTimeList t
        (lowerBoundIndex series.unixTimeList t)) 0| > time_interval then
    emptyClockState
      (setUpAdjustIndex N series.unixTimeList t
        (lowerBoundIndex series.unixTimeList t))
  else
    finishClockState N time_interval series
      (builtClockState N series
        (setUpAdjustIndex N series.unixTimeList t
          (lowerBoundIndex series.unixTimeList t))) t

/-- A clock state with only the validity flag cleared. -/
def invalidateClock (st : ClockState) : ClockState :=
  ⟨st.nearestIndex, st.timePeriodList, st.clockBiasWindow, false,
    st.clockOffset⟩

/-- The clock state after the `Update` advance branch (lines 864-877). -/
def advancedClockState (N : ℕ) (series : SatClockSeries) (index : ℕ)
    (st : ClockState) : ClockState :=
  ⟨index,
    windowSlice 0 series.unixTimeList index N series.unixTimeList.length,
    windowSlice 0 series.clockSeries index N series.unixTimeList.length,
    st.valid, st.clockOffset⟩

/-- GnssSatelliteClock::Update, loop body for one satellite (lines 846-907). -/
def updateSatClock (N : ℕ) (time_interval : ℚ) (series : SatClockSeries)
    (st : ClockState) (t : ℚ) : ClockState :=
  if series.unixTimeList.length = 0 then invalidateClock st
  else if st.nearestIndex = series.unixTimeList.length then invalidateClock st
  else
    finishClockState N time_interval series
      (if st.nearestIndex + 1 < series.unixTimeList.length ∧
          |t - series.unixTimeList.getD (st.nearestIndex + 1) 0| <
            |t - series.unixTimeList.getD st.nearestIndex 0| then
        advancedClockState N series (st.nearestIndex + 1) st
      else st) t

/-! ### Accessors, dual-track facade and observables

The query side of the engine reads the whole-fleet vectors (`validate_`,
`position_ecef_m_`, `position_eci_m_`, `clock_offset_m_`) through `int`
identifiers.  `std::vector::at` throws for any index outside `[0, size)`; it
is modelled by `atOpt`, with `none` standing for the thrown exception. -/

/-- `std::vector::at`: `some` of the element when `0 ≤ i < size`, `none`
(the `std::out_of_range` exception) otherwise. -/
def atOpt {α : Type} (l : List α) (i : ℤ) : Option α :=
  if h : 0 ≤ i ∧ i.toNat < l.length then some (l.get ⟨i.toNat, h.2⟩) else none

/-- Physical constant `environment::speed_of_light_m_s`. -/
def speed_of_light_m_s : ℚ := 299792458

/-- Physical constant `environment::earth_equatorial_radius_m` (IERS 2003
value used by s2e). -/
def earth_equatorial_radius_m : ℚ := 63781366 / 10

/-- The transcendental library calls of the observable generator, kept
abstract: `sqrtQ` models `std::sqrt`, and `cosAngleQ a b` models
`cos(CalcAngleTwoVectors_rad(a, b))`.  Every theorem below holds for all
interpretations. -/
structure RealFuns where
  sqrtQ : ℚ → ℚ
  cosAngleQ : Vec3 → Vec3 → ℚ

/-- Whole-fleet accessor state of `GnssSatellitePosition`. -/
structure GnssSatellitePositionAcc where
  validate : List Bool
  position_ecef_m : List Vec3
  position_eci_m : List Vec3
deriving DecidableEq

/-- Whole-fleet accessor state of `GnssSatelliteClock`. -/
structure GnssSatelliteClockAcc where
  validate : List Bool
  clock_offset_m : List ℚ
deriving DecidableEq

/-- GnssSatelliteBase::GetWhetherValid (lines 333-336): `false` for any id at
or above `all_sat_num_`, otherwise `validate_.at(id)` — which throws for a
negative id. -/
def GnssSatelliteBase.GetWhetherValid (validate : List Bool) (id : ℤ) :
    Option Bool :=
  if all_sat_num ≤ id then some false else atOpt validate id

/-- GnssSatellitePosition::GetPosition_ecef_m (lines 616-619). -/
def GnssSatellitePosition.GetPosition_ecef_m (st : GnssSatellitePositionAcc)
    (id : ℤ) : Option Vec3 :=
  if all_sat_num ≤ id then some vzero else atOpt st.position_ecef_m id

/-- GnssSatellitePosition::GetPosition_eci_m (lines 621-624). -/
def GnssSatellitePosition.GetPosition_eci_m (st : GnssSatellitePositionAcc)
    (id : ℤ) : Option Vec3 :=
  if all_sat_num ≤ id then some vzero else atOpt st.position_eci_m id

/-- GnssSatelliteClock::GetSatClock (lines 909-912). -/
def GnssSatelliteClock.GetSatClock (st : GnssSatelliteClockAcc) (id : ℤ) :
    Option ℚ :=
  if all_sat_num ≤ id then some 0 else atOpt st.clock_offset_m id

/-- One ephemeris track pair (`GnssSatelliteInformation`): a position store
and a clock store. -/
structure GnssSatelliteInformation where
  position : GnssSatellitePositionAcc
  clock : GnssSatelliteClockAcc
deriving DecidableEq

/-- GnssSatelliteInformation::GetWhetherValid (lines 942-945):
`position && clock`, with C++ short-circuit evaluation. -/
def GnssSatelliteInformation.GetWhetherValid (info : GnssSatelliteInformation)
    (id : ℤ) : Option Bool :=
  match GnssSatelliteBase.GetWhetherValid info.position.validate id with
  | none => none
  | some p =>
    if p then
      match GnssSatelliteBase.GetWhetherValid info.clock.validate id with
      | none => none
      | some c => some c
    else some false

/-- GnssSatelliteInformation::GetNumberOfSatellites (lines 933-940): both
tracks report the constant `all_sat_num_`, so the mismatch branch returning 0
is dead. -/
def GnssSatelliteInformation.GetNumberOfSatellites
    (_info : GnssSatelliteInformation) : ℤ :=
  if all_sat_num = all_sat_num then all_sat_num else 0

/-- GnssSatelliteInformation::GetSatellitePositionEcef (line 947). -/
def GnssSatelliteInformation.GetSatellitePositionEcef
    (info : GnssSatelliteInformation) (id : ℤ) : Option Vec3 :=
  GnssSatellitePosition.GetPosition_ecef_m info.position id

/-- GnssSatelliteInformation::GetSatellitePositionEci (line 951). -/
def GnssSatelliteInformation.GetSatellitePositionEci
    (info : GnssSatelliteInformation) (id : ℤ) : Option Vec3 :=
  GnssSatellitePosition.GetPosition_eci_m info.position id

/-- GnssSatelliteInformation::GetSatelliteClock (line 955). -/
def GnssSatelliteInformation.GetSatelliteClock
    (info : GnssSatelliteInformation) (id : ℤ) : Option ℚ :=
  GnssSatelliteClock.GetSatClock info.clock id

/-- The dual-track facade `GnssSatellites` (query-relevant state). -/
structure GnssSatellites where
  true_info : GnssSatelliteInformation
  estimate_info : GnssSatelliteInformation
deriving DecidableEq

/-- GnssSatellites::GetNumberOfSatellites (line 1035). -/
def GnssSatellites.GetNumberOfSatellites (g : GnssSatellites) : ℤ :=
  GnssSatelliteInformation.GetNumberOfSatellites g.estimate_info

/-- GnssSatellites::GetWhetherValid (lines 1041-1048): `false` at or above the
total count, otherwise `true_info && estimate_info` with short-circuit. -/
def GnssSatellites.GetWhetherValid (g : GnssSatellites) (id : ℤ) :
    Option Bool :=
  if GnssSatellites.GetNumberOfSatellites g ≤ id then some false
  else
    match GnssSatelliteInformation.GetWhetherValid g.true_info id with
    | none => none
    | some tv =>
      if tv then GnssSatelliteInformation.GetWhetherValid g.estimate_info id
      else some false

/-- The frame selector of the observable generator. -/
inductive GnssFrameDefinition where
  | kEcef : GnssFrameDefinition
  | kEci : GnssFrameDefinition

/-- The true-track satellite position in the requested frame
(lines 1197-1201). -/
def trueSatellitePositionOf (g : GnssSatellites) (flag : GnssFrameDefinition)
    (id : ℤ) : Option Vec3 :=
  match flag with
  | GnssFrameDefinition.kEcef =>
    GnssSatelliteInformation.GetSatellitePositionEcef g.true_info id
  | GnssFrameDefinition.kEci =>
    GnssSatelliteInformation.GetSatellitePositionEci g.true_info id

/-- The receiver altitude in km computed by `AddIonosphericDelay`
(lines 1189-1194): norm of the receiver position, m to km, minus the Earth
equatorial radius in km. -/
def receiverAltitudeKm (F : RealFuns) (rec_position : Vec3) : ℚ :=
  F.sqrtQ (rec_position.x ^ 2 + rec_position.y ^ 2 + rec_position.z ^ 2) /
    1000 - earth_equatorial_radius_m / 1000

/-- GnssSatellites::AddIonosphericDelay (lines 1184-1212): zero for an
out-of-range or invalid satellite and above 1000 km altitude; below that, a
20 m baseline scaled linearly in altitude, slanted by the line-of-sight
cosine, and scaled inverse-square in frequency. -/
def GnssSatellites.AddIonosphericDelay (F : RealFuns) (g : GnssSatellites)
    (id : ℤ) (rec_position : Vec3) (frequency : ℚ)
    (flag : GnssFrameDefinition) : Option ℚ :=
  if GnssSatellites.GetNumberOfSatellites g ≤ id then some 0
  else
    match GnssSatellites.GetWhetherValid g id with
    | none => none
    | some v =>
      if !v then some 0
      else
        if 1000 ≤ receiverAltitudeKm F rec_position then some 0
        else
          match trueSatellitePositionOf g flag id with
          | none => none
          | some gnss_position =>
            some (20 * (1000 - receiverAltitudeKm F rec_position) / 1000 /
              F.cosAngleQ rec_position (vsub gnss_position rec_position) *
              (1500 / frequency) ^ 2)

/-- GnssSatellites::GetPseudoRangeECEF (lines 1078-1099): geometric range plus
receiver-minus-satellite clock bias plus ionospheric delay; zero for an
out-of-range or invalid satellite. -/
def GnssSatellites.GetPseudoRangeECEF (F : RealFuns) (g : GnssSatellites)
    (id : ℤ) (rec_position : Vec3) (rec_clock : ℚ) (frequency : ℚ) :
    Option ℚ :=
  if GnssSatellites.GetNumberOfSatellites g ≤ id then some 0
  else
    match GnssSatellites.GetWhetherValid g id with
    | none => none
    | some v =>
      if !v then some 0
      else
        match GnssSatelliteInformation.GetSatellitePositionEcef g.true_info id
          with
        | none => none
        | some gnss_position =>
          match GnssSatelliteInformation.GetSatelliteClock g.true_info id with
          | none => none
          | some sat_clock =>
            match GnssSatellites.AddIonosphericDelay F g id rec_position
              frequency GnssFrameDefinition.kEcef with
            | none => none
            | some ionospheric_delay =>
              some (F.sqrtQ ((rec_position.x - gnss_position.x) ^ 2 +
                  (rec_position.y - gnss_position.y) ^ 2 +
                  (rec_position.z - gnss_position.z) ^ 2) +
                (rec_clock - sat_clock) + ionospheric_delay)

/-- GnssSatellites::GetPseudoRangeECI (lines 1101-1121). -/
def GnssSatellites.GetPseudoRangeECI (F : RealFuns) (g : GnssSatellites)
    (id : ℤ) (rec_position : Vec3) (rec_clock : ℚ) (frequency : ℚ) :
    Option ℚ :=
  if GnssSatellites.GetNumberOfSatellites g ≤ id then some 0
  else
    match GnssSatellites.GetWhetherValid g id with
    | none => none
    | some v =>
      if !v then some 0
      else
        match GnssSatelliteInformation.GetSatellitePositionEci g.true_info id
          with
        | none => none
        | some gnss_position =>
          match GnssSatelliteInformation.GetSatelliteClock g.true_info id with
          | none => none
          | some sat_clock =>
            match GnssSatellites.AddIonosphericDelay F g id rec_position
              frequency GnssFrameDefinition.kEci with
            | none => none
            | some ionospheric_delay =>
              some (F.sqrtQ ((rec_position.x - gnss_position.x) ^ 2 +
                  (rec_position.y - gnss_position.y) ^ 2 +
                  (rec_position.z - gnss_position.z) ^ 2) +
                (rec_clock - sat_clock) + ionospheric_delay)

/-- The carrier cycle split shared by both `GetCarrierPhase` overloads
(lines 1143-1150): wavelength `c * 1e-6 / frequency` (frequency in MHz), the
integer part of the cycle count split off with `floor` as the ambiguity. -/
def carrierSplit (res : ℚ) (frequency : ℚ) : ℚ × ℚ :=
  (res / (speed_of_light_m_s * (1 / 1000000) / frequency) -
    ((⌊res / (speed_of_light_m_s * (1 / 1000000) / frequency)⌋ : ℤ) : ℚ),
   ((⌊res / (speed_of_light_m_s * (1 / 1000000) / frequency)⌋ : ℤ) : ℚ))

/-- GnssSatellites::GetCarrierPhaseECEF (lines 1123-1151): the carrier range
(ionospheric delay subtracted) in cycles of wavelength `c * 1e-6 / frequency`,
split into the fractional cycle and the integer ambiguity. -/
def GnssSatellites.GetCarrierPhaseECEF (F : RealFuns) (g : GnssSatellites)
    (id : ℤ) (rec_position : Vec3) (rec_clock : ℚ) (frequency : ℚ) :
    Option (ℚ × ℚ) :=
  if GnssSatellites.GetNumberOfSatellites g ≤ id then some (0, 0)
  else
    match GnssSatellites.GetWhetherValid g id with
    | none => none
    | some v =>
      if !v then some (0, 0)
      else
        match GnssSatelliteInformation.GetSatellitePositionEcef g.true_info id
          with
        | none => none
        | some gnss_position =>
          match GnssSatelliteInformation.GetSatelliteClock g.true_info id with
          | none => none
          | some sat_clock =>
            match GnssSatellites.AddIonosphericDelay F g id rec_position
              frequency GnssFrameDefinition.kEcef with
            | none => none
            | some ionospheric_delay =>
              some (carrierSplit
                (F.sqrtQ ((rec_position.x - gnss_position.x) ^ 2 +
                    (rec_position.y - gnss_position.y) ^ 2 +
                    (rec_position.z - gnss_position.z) ^ 2) +
                  (rec_clock - sat_clock) - ionospheric_delay) frequency)

/-- GnssSatellites::GetCarrierPhaseECI (lines 1153-1181). -/
def GnssSatellites.GetCarrierPhaseECI (F : RealFuns) (g : GnssSatellites)
    (id : ℤ) (rec_position : Vec3) (rec_clock : ℚ) (frequency : ℚ) :
    Option (ℚ × ℚ) :=
  if GnssSatellites.GetNumberOfSatellites g ≤ id then some (0, 0)
  else
    match GnssSatellites.GetWhetherValid g id with
    | none => none
    | some v =>
      if !v then some (0, 0)
      else
        match GnssSatelliteInformation.GetSatellitePositionEci g.true_info id
          with
        | none => none
        | some gnss_position =>
          match GnssSatelliteInformation.GetSatelliteClock g.true_info id with
          | none => none
          | some sat_clock =>
            match GnssSatellites.AddIonosphericDelay F g id rec_position
              frequency GnssFrameDefinition.kEci with
            | none => none
            | some ionospheric_delay =>
              some (carrierSplit
                (F.sqrtQ ((rec_position.x - gnss_position.x) ^ 2 +
                    (rec_position.y - gnss_position.y) ^ 2 +
                    (rec_position.z - gnss_position.z) ^ 2) +
                  (rec_clock - sat_clock) - ionospheric_delay) frequency)

/-! ### Claims about the constellation index -/

/-- The flat-index roundtrip, decided case by case over all 117 indices. -/
lemma roundtrip_on_nat_indices :
    ∀ n : ℕ, n < 117 → GetIndexFromId (GetIdFromIndex (n : ℤ)) = (n : ℤ) := by
  decide

/-- C4: for every valid flat index `0 ≤ i < 117`,
`GetIndexFromId (GetIdFromIndex i) = i`. -/
theorem index_id_roundtrip (i : ℤ) (h0 : 0 ≤ i) (h1 : i < 117) :
    GetIndexFromId (GetIdFromIndex i) = i := by
  have hi : i = ((i.toNat : ℕ) : ℤ) := (Int.toNat_of_nonneg h0).symm
  rw [hi]
  exact roundtrip_on_nat_indices i.toNat (by omega)

/-- Witness for `index_id_roundtrip` at the concrete index 31. -/
theorem index_id_roundtrip_witness : GetIndexFromId (GetIdFromIndex 31) = 31 :=
  index_id_roundtrip 31 (by decide) (by decide)

/-- C5 (code bug): `GetIdFromIndex` is not a left inverse of `GetIndexFromId`
on well-formed identifiers: the last satellite of each constellation except
QZSS maps to the flat index that `GetIdFromIndex`, whose boundary comparisons
are off by one against the `-1`-based offset table, renders as the
nonexistent number-zero identifier of the next constellation ("G32" flows to
index 31 and back to "R00"). -/
theorem id_from_index_boundary_eval :
    GetIndexFromId ['G', '3', '2'] = 31 ∧
    GetIdFromIndex 31 = ['R', '0', '0'] ∧
    GetIdFromIndex (GetIndexFromId ['G', '3', '2']) ≠ ['G', '3', '2'] ∧
    GetIdFromIndex (GetIndexFromId ['R', '2', '6']) ≠ ['R', '2', '6'] ∧
    GetIdFromIndex (GetIndexFromId ['E', '3', '6']) ≠ ['E', '3', '6'] ∧
    GetIdFromIndex (GetIndexFromId ['C', '1', '6']) ≠ ['C', '1', '6'] ∧
    GetIdFromIndex (GetIndexFromId ('G' :: twoDigitChars 31)) =
      'G' :: twoDigitChars 31 := by
  decide

/-! ### Claims about validity and the degenerate accessor results -/

/-- The satellite count reported by the facade is the constant 117. -/
lemma gnss_num_eq (g : GnssSatellites) :
    GnssSatellites.GetNumberOfSatellites g = 117 := by
  unfold GnssSatellites.GetNumberOfSatellites
    GnssSatelliteInformation.GetNumberOfSatellites
  rw [if_pos rfl]
  decide

/-- Track-pair validity is the conjunction of the position and clock base
validities (with C++ short-circuiting folded away by the case split). -/
lemma info_valid_iff (info : GnssSatelliteInformation) (id : ℤ) :
    GnssSatelliteInformation.GetWhetherValid info id = some true ↔
      (GnssSatelliteBase.GetWhetherValid info.position.validate id = some true ∧
        GnssSatelliteBase.GetWhetherValid info.clock.validate id = some true) := by
  unfold GnssSatelliteInformation.GetWhetherValid
  cases hp : GnssSatelliteBase.GetWhetherValid info.position.validate id with
  | none => simp
  | some p =>
    cases p with
    | false => simp
    | true =>
      cases hc : GnssSatelliteBase.GetWhetherValid info.clock.validate id with
      | none => simp
      | some c => simp

/-- Facade validity below the total count is the conjunction of the two
track-pair validities. -/
lemma gnss_valid_iff (g : GnssSatellites) (id : ℤ) (hid : id < 117) :
    GnssSatellites.GetWhetherValid g id = some true ↔
      (GnssSatelliteInformation.GetWhetherValid g.true_info id = some true ∧
        GnssSatelliteInformation.GetWhetherValid g.estimate_info id
          = some true) := by
  unfold GnssSatellites.GetWhetherValid
  rw [gnss_num_eq, if_neg (by omega : ¬ (117 : ℤ) ≤ id)]
  cases ht : GnssSatelliteInformation.GetWhetherValid g.true_info id with
  | none => simp
  | some tv =>
    cases tv with
    | false => simp
    | true => simp

/-- C3: for every id below the total satellite count, the facade
`GetWhetherValid` is true exactly when both the true track and the estimate
track are valid, and each track's validity is itself the conjunction of its
position validity and its clock validity. -/
theorem dual_track_validity (g : GnssSatellites) (id : ℤ) (h0 : 0 ≤ id)
    (hid : id < GnssSatellites.GetNumberOfSatellites g) :
    ((GnssSatellites.GetWhetherValid g id = some true ↔
      (GnssSatelliteInformation.GetWhetherValid g.true_info id = some true ∧
        GnssSatelliteInformation.GetWhetherValid g.estimate_info id
          = some true)) ∧
    (GnssSatelliteInformation.GetWhetherValid g.true_info id = some true ↔
      (GnssSatelliteBase.GetWhetherValid g.true_info.position.validate id
          = some true ∧
        GnssSatelliteBase.GetWhetherValid g.true_info.clock.validate id
          = some true)) ∧
    (GnssSatelliteInformation.GetWhetherValid g.estimate_info id = some true ↔
      (GnssSatelliteBase.GetWhetherValid g.estimate_info.position.validate id
          = some true ∧
        GnssSatelliteBase.GetWhetherValid g.estimate_info.clock.validate id
          = some true))) := by
  rw [gnss_num_eq] at hid
  exact ⟨gnss_valid_iff g id hid, info_valid_iff g.true_info id,
    info_valid_iff g.estimate_info id⟩

/-- An all-invalid one-satellite facade state, for concrete instantiation. -/
def gAllFalse : GnssSatellites :=
  ⟨⟨⟨[false], [vzero], [vzero]⟩, ⟨[false], [0]⟩⟩,
   ⟨⟨[false], [vzero], [vzero]⟩, ⟨[false], [0]⟩⟩⟩

/-- Witness for `dual_track_validity` at satellite 0 of a concrete state. -/
theorem dual_track_validity_witness :
    ((GnssSatellites.GetWhetherValid gAllFalse 0 = some true ↔
      (GnssSatelliteInformation.GetWhetherValid gAllFalse.true_info 0
          = some true ∧
        GnssSatelliteInformation.GetWhetherValid gAllFalse.estimate_info 0
          = some true)) ∧
    (GnssSatelliteInformation.GetWhetherValid gAllFalse.true_info 0
        = some true ↔
      (GnssSatelliteBase.GetWhetherValid gAllFalse.true_info.position.validate 0
          = some true ∧
        GnssSatelliteBase.GetWhetherValid gAllFalse.true_info.clock.validate 0
          = some true)) ∧
    (GnssSatelliteInformation.GetWhetherValid gAllFalse.estimate_info 0
        = some true ↔
      (GnssSatelliteBase.GetWhetherValid
          gAllFalse.estimate_info.position.validate 0 = some true ∧
        GnssSatelliteBase.GetWhetherValid
          gAllFalse.estimate_info.clock.validate 0 = some true))) :=
  dual_track_validity gAllFalse 0 (by decide) (by decide)

/-- C2: every observable accessor returns the documented degenerate zero
result — and raises no exception — for any id at or above the total count and
for any satellite whose combined validity flag is false, for all receiver
positions, clocks and frequencies. -/
theorem observables_degenerate_zero (F : RealFuns) (g : GnssSatellites)
    (id : ℤ) (rec_position : Vec3) (rec_clock : ℚ) (frequency : ℚ)
    (h : GnssSatellites.GetNumberOfSatellites g ≤ id ∨
      GnssSatellites.GetWhetherValid g id = some false) :
    GnssSatellites.GetPseudoRangeECEF F g id rec_position rec_clock frequency
        = some 0 ∧
    GnssSatellites.GetPseudoRangeECI F g id rec_position rec_clock frequency
        = some 0 ∧
    GnssSatellites.GetCarrierPhaseECEF F g id rec_position rec_clock frequency
        = some (0, 0) ∧
    GnssSatellites.GetCarrierPhaseECI F g id rec_position rec_clock frequency
        = some (0, 0) := by
  rcases h with h | h
  · refine ⟨?_, ?_, ?_, ?_⟩
    · unfold GnssSatellites.GetPseudoRangeECEF; rw [if_pos h]
    · unfold GnssSatellites.GetPseudoRangeECI; rw [if_pos h]
    · unfold GnssSatellites.GetCarrierPhaseECEF; rw [if_pos h]
    · unfold GnssSatellites.GetCarrierPhaseECI; rw [if_pos h]
  · by_cases hn : GnssSatellites.GetNumberOfSatellites g ≤ id
    · refine ⟨?_, ?_, ?_, ?_⟩
      · unfold GnssSatellites.GetPseudoRangeECEF; rw [if_pos hn]
      · unfold GnssSatellites.GetPseudoRangeECI; rw [if_pos hn]
      · unfold GnssSatellites.GetCarrierPhaseECEF; rw [if_pos hn]
      · unfold GnssSatellites.GetCarrierPhaseECI; rw [if_pos hn]
    · refine ⟨?_, ?_, ?_, ?_⟩
      · unfold GnssSatellites.GetPseudoRangeECEF; rw [if_neg hn]; simp [h]
      · unfold GnssSatellites.GetPseudoRangeECI; rw [if_neg hn]; simp [h]
      · unfold GnssSatellites.GetCarrierPhaseECEF; rw [if_neg hn]; simp [h]
      · unfold GnssSatellites.GetCarrierPhaseECI; rw [if_neg hn]; simp [h]

/-- A trivial interpretation of the transcendental calls, for concrete
instantiation. -/
def FZero : RealFuns := ⟨fun _ => 0, fun _ _ => 0⟩

/-- Witness for `observables_degenerate_zero`: an in-range satellite whose
combined flag is false. -/
theorem observables_degenerate_zero_witness :
    GnssSatellites.GetPseudoRangeECEF FZero gAllFalse 0 vzero 0 1500 = some 0 ∧
    GnssSatellites.GetPseudoRangeECI FZero gAllFalse 0 vzero 0 1500 = some 0 ∧
    GnssSatellites.GetCarrierPhaseECEF FZero gAllFalse 0 vzero 0 1500
        = some (0, 0) ∧
    GnssSatellites.GetCarrierPhaseECI FZero gAllFalse 0 vzero 0 1500
        = some (0, 0) :=
  observables_degenerate_zero FZero gAllFalse 0 vzero 0 1500 (Or.inr (by decide))

/-- `vector::at` throws (yields `none`) for every negative index. -/
lemma atOpt_neg {α : Type} (l : List α) (i : ℤ) (h : i < 0) :
    atOpt l i = none := by
  unfold atOpt
  rw [dif_neg]
  omega

/-- Facade validity evaluation reaches the throwing `at` for negative ids. -/
lemma gnss_valid_neg (g : GnssSatellites) (id : ℤ) (h : id < 0) :
    GnssSatellites.GetWhetherValid g id = none := by
  have h117 : all_sat_num = 117 := by decide
  have hn1 : ¬ (117 : ℤ) ≤ id := by omega
  have hn2 : ¬ all_sat_num ≤ id := by omega
  simp [GnssSatellites.GetWhetherValid,
    GnssSatelliteInformation.GetWhetherValid,
    GnssSatelliteBase.GetWhetherValid, gnss_num_eq, hn1, hn2,
    atOpt_neg _ _ h]

/-- C10: the per-satellite accessors guard only the upper bound of the id, so
for every negative id the guard passes and the subsequent `at` access is out
of bounds (the exception branch, `none`, is reached), while the documented
zero/invalid degenerate result is delivered for every id at or above the
total count. -/
theorem negative_id_out_of_bounds :
    (∀ (validate : List Bool) (posAcc : GnssSatellitePositionAcc)
      (clkAcc : GnssSatelliteClockAcc) (F : RealFuns) (g : GnssSatellites)
      (id : ℤ) (rec_position : Vec3) (rec_clock : ℚ) (frequency : ℚ),
      id < 0 →
      GnssSatelliteBase.GetWhetherValid validate id = none ∧
      GnssSatelliteClock.GetSatClock clkAcc id = none ∧
      GnssSatellitePosition.GetPosition_ecef_m posAcc id = none ∧
      GnssSatellites.GetPseudoRangeECEF F g id rec_position rec_clock frequency
        = none) ∧
    (∀ (validate : List Bool) (posAcc : GnssSatellitePositionAcc)
      (clkAcc : GnssSatelliteClockAcc) (F : RealFuns) (g : GnssSatellites)
      (id : ℤ) (rec_position : Vec3) (rec_clock : ℚ) (frequency : ℚ),
      117 ≤ id →
      GnssSatelliteBase.GetWhetherValid validate id = some false ∧
      GnssSatelliteClock.GetSatClock clkAcc id = some 0 ∧
      GnssSatellitePosition.GetPosition_ecef_m posAcc id = some vzero ∧
      GnssSatellites.GetPseudoRangeECEF F g id rec_position rec_clock frequency
        = some 0) := by
  have hnum : all_sat_num = 117 := by decide
  constructor
  · intro validate posAcc clkAcc F g id rec_position rec_clock frequency h
    have hlt : ¬ all_sat_num ≤ id := by omega
    refine ⟨?_, ?_, ?_, ?_⟩
    · unfold GnssSatelliteBase.GetWhetherValid
      rw [if_neg hlt, atOpt_neg _ _ h]
    · unfold GnssSatelliteClock.GetSatClock
      rw [if_neg hlt, atOpt_neg _ _ h]
    · unfold GnssSatellitePosition.GetPosition_ecef_m
      rw [if_neg hlt, atOpt_neg _ _ h]
    · unfold GnssSatellites.GetPseudoRangeECEF
      rw [if_neg (by rw [gnss_num_eq]; omega), gnss_valid_neg g id h]
  · intro validate posAcc clkAcc F g id rec_position rec_clock frequency h
    have hge : all_sat_num ≤ id := by omega
    refine ⟨?_, ?_, ?_, ?_⟩
    · unfold GnssSatelliteBase.GetWhetherValid; rw [if_pos hge]
    · unfold GnssSatelliteClock.GetSatClock; rw [if_pos hge]
    · unfold GnssSatellitePosition.GetPosition_ecef_m; rw [if_pos hge]
    · unfold GnssSatellites.GetPseudoRangeECEF
      rw [if_pos (by rw [gnss_num_eq]; omega)]

/-- Witness for `negative_id_out_of_bounds` at ids -1 and 117. -/
theorem negative_id_out_of_bounds_witness :
    (GnssSatelliteBase.GetWhetherValid [false] (-1) = none ∧
      GnssSatelliteClock.GetSatClock ⟨[false], [0]⟩ (-1) = none ∧
      GnssSatellitePosition.GetPosition_ecef_m ⟨[false], [vzero], [vzero]⟩ (-1)
        = none ∧
      GnssSatellites.GetPseudoRangeECEF FZero gAllFalse (-1) vzero 0 1500
        = none) ∧
    (GnssSatelliteBase.GetWhetherValid [false] 117 = some false ∧
      GnssSatelliteClock.GetSatClock ⟨[false], [0]⟩ 117 = some 0 ∧
      GnssSatellitePosition.GetPosition_ecef_m ⟨[false], [vzero], [vzero]⟩ 117
        = some vzero ∧
      GnssSatellites.GetPseudoRangeECEF FZero gAllFalse 117 vzero 0 1500
        = some 0) :=
  ⟨negative_id_out_of_bounds.1 [false] ⟨[false], [vzero], [vzero]⟩
      ⟨[false], [0]⟩ FZero gAllFalse (-1) vzero 0 1500 (by decide),
   negative_id_out_of_bounds.2 [false] ⟨[false], [vzero], [vzero]⟩
      ⟨[false], [0]⟩ FZero gAllFalse 117 vzero 0 1500 (by decide)⟩

/-! ### Claims about the interpolation windows -/

lemma finishPos_nearestIndex (N : ℕ) (ti : ℚ)
    (trig : List ℚ → List Vec3 → ℚ → Vec3) (series : SatPositionSeries)
    (st : PosState) (t : ℚ) :
    (finishPosState N ti trig series st t).nearestIndex = st.nearestIndex := by
  unfold finishPosState
  split_ifs <;> rfl

lemma finishPos_timePeriodList (N : ℕ) (ti : ℚ)
    (trig : List ℚ → List Vec3 → ℚ → Vec3) (series : SatPositionSeries)
    (st : PosState) (t : ℚ) :
    (finishPosState N ti trig series st t).timePeriodList
      = st.timePeriodList := by
  unfold finishPosState
  split_ifs <;> rfl

/-- A `valid = true` outcome of the shared position checks certifies the
window population, the window span bound (slack 3), and the nearest-sample
distance bound. -/
lemma finishPos_valid_props (N : ℕ) (ti : ℚ)
    (trig : List ℚ → List Vec3 → ℚ → Vec3) (series : SatPositionSeries)
    (st : PosState) (t : ℚ)
    (hv : (finishPosState N ti trig series st t).valid = true) :
    st.timePeriodList.length = N ∧
    st.timePeriodList.getLast?.getD 0 - st.timePeriodList.head?.getD 0 ≤
      ti * ((N : ℚ) - 1 + 3) + 1 / 10000 ∧
    |t - series.unixTimeList.getD st.nearestIndex 0| ≤ ti := by
  unfold finishPosState at hv
  by_cases h1 : |t - series.unixTimeList.getD st.nearestIndex 0| > ti
  · rw [if_pos h1] at hv
    exact absurd hv (by simp)
  · rw [if_neg h1] at hv
    by_cases h2 : st.timePeriodList.length ≠ N
    · rw [if_pos h2] at hv
      exact absurd hv (by simp)
    · rw [if_neg h2] at hv
      by_cases h3 : st.timePeriodList.getLast?.getD 0 -
          st.timePeriodList.head?.getD 0 > ti * ((N : ℚ) - 1 + 3) + 1 / 10000
      · rw [if_pos h3] at hv
        exact absurd hv (by simp)
      · exact ⟨by omega, not_lt.mp h3, not_lt.mp h1⟩

/-- A `valid = true` outcome of the shared position checks together with the
exact-sample condition yields the stored sample, for any interpolation
kernel. -/
lemma finishPos_exact (N : ℕ) (ti : ℚ)
    (trig : List ℚ → List Vec3 → ℚ → Vec3) (series : SatPositionSeries)
    (st : PosState) (t : ℚ)
    (hv : (finishPosState N ti trig series st t).valid = true)
    (hx : |t - series.unixTimeList.getD st.nearestIndex 0| < 1 / 10000) :
    (finishPosState N ti trig series st t).positionEcef
        = series.ecefSeries.getD st.nearestIndex vzero ∧
    (finishPosState N ti trig series st t).positionEci
        = series.eciSeries.getD st.nearestIndex vzero := by
  unfold finishPosState at hv ⊢
  by_cases h1 : |t - series.unixTimeList.getD st.nearestIndex 0| > ti
  · rw [if_pos h1] at hv
    exact absurd hv (by simp)
  · rw [if_neg h1] at hv ⊢
    by_cases h2 : st.timePeriodList.length ≠ N
    · rw [if_pos h2] at hv
      exact absurd hv (by simp)
    · rw [if_neg h2] at hv ⊢
      by_cases h3 : st.timePeriodList.getLast?.getD 0 -
          st.timePeriodList.head?.getD 0 > ti * ((N : ℚ) - 1 + 3) + 1 / 10000
      · rw [if_pos h3] at hv
        exact absurd hv (by simp)
      · rw [if_neg h3] at hv ⊢
        rw [if_pos hx]
        exact ⟨rfl, rfl⟩

lemma finishClock_nearestIndex (N : ℕ) (ti : ℚ) (series : SatClockSeries)
    (st : ClockState) (t : ℚ) :
    (finishClockState N ti series st t).nearestIndex = st.nearestIndex := by
  unfold finishClockState
  split_ifs <;> rfl

lemma finishClock_timePeriodList (N : ℕ) (ti : ℚ) (series : SatClockSeries)
    (st : ClockState) (t : ℚ) :
    (finishClockState N ti series st t).timePeriodList
      = st.timePeriodList := by
  unfold finishClockState
  split_ifs <;> rfl

/-- A `valid = true` outcome of the shared clock checks certifies the window
population, the stricter window span bound (no slack), and the
nearest-sample distance bound. -/
lemma finishClock_valid_props (N : ℕ) (ti : ℚ) (series : SatClockSeries)
    (st : ClockState) (t : ℚ)
    (hv : (finishClockState N ti series st t).valid = true) :
    st.timePeriodList.length = N ∧
    st.timePeriodList.getLast?.getD 0 - st.timePeriodList.head?.getD 0 ≤
      ti * ((N : ℚ) - 1) + 1 / 10000 ∧
    |t - series.unixTimeList.getD st.nearestIndex 0| ≤ ti := by
  unfold finishClockState at hv
  by_cases h1 : st.timePeriodList.length ≠ N
  · rw [if_pos h1] at hv
    exact absurd hv (by simp)
  · rw [if_neg h1] at hv
    by_cases h2 : |t - series.unixTimeList.getD st.nearestIndex 0| > ti
    · rw [if_pos h2] at hv
      exact absurd hv (by simp)
    · rw [if_neg h2] at hv
      by_cases h3 : st.timePeriodList.getLast?.getD 0 -
          st.timePeriodList.head?.getD 0 > ti * ((N : ℚ) - 1) + 1 / 10000
      · rw [if_pos h3] at hv
        exact absurd hv (by simp)
      · exact ⟨by omega, not_lt.mp h3, not_lt.mp h2⟩

/-- The clock exact-sample branch yields the stored clock bias, bypassing
Lagrange interpolation. -/
lemma finishClock_exact (N : ℕ) (ti : ℚ) (series : SatClockSeries)
    (st : ClockState) (t : ℚ)
    (hv : (finishClockState N ti series st t).valid = true)
    (hx : |t - series.unixTimeList.getD st.nearestIndex 0| < 1 / 10000) :
    (finishClockState N ti series st t).clockOffset
        = series.clockSeries.getD st.nearestIndex 0 := by
  unfold finishClockState at hv ⊢
  by_cases h1 : st.timePeriodList.length ≠ N
  · rw [if_pos h1] at hv
    exact absurd hv (by simp)
  · rw [if_neg h1] at hv ⊢
    by_cases h2 : |t - series.unixTimeList.getD st.nearestIndex 0| > ti
    · rw [if_pos h2] at hv
      exact absurd hv (by simp)
    · rw [if_neg h2] at hv ⊢
      by_cases h3 : st.timePeriodList.getLast?.getD 0 -
          st.timePeriodList.head?.getD 0 > ti * ((N : ℚ) - 1) + 1 / 10000
      · rw [if_pos h3] at hv
        exact absurd hv (by simp)
      · rw [if_neg h3] at hv ⊢
        rw [if_pos hx]

/-- The `SetUp` loop body either exits early (flag false, empty window) or
ends in the shared final checks. -/
lemma setUpPos_shape (N : ℕ) (ti : ℚ)
    (trig : List ℚ → List Vec3 → ℚ → Vec3) (series : SatPositionSeries)
    (t : ℚ) :
    (∃ i, setUpSatPosition N ti trig series t = emptyPosState i) ∨
    (∃ st0, setUpSatPosition N ti trig series t
        = finishPosState N ti trig series st0 t ∧
      st0.nearestIndex =
        setUpAdjustIndex N series.unixTimeList t
          (lowerBoundIndex series.unixTimeList t)) := by
  unfold setUpSatPosition
  split_ifs
  · exact Or.inl ⟨0, rfl⟩
  · exact Or.inl ⟨_, rfl⟩
  · exact Or.inl ⟨_, rfl⟩
  · exact Or.inr ⟨_, rfl, rfl⟩

/-- The `Update` loop body either merely clears the flag or ends in the
shared final checks on the (possibly advanced) state. -/
lemma updatePos_shape (N : ℕ) (ti : ℚ)
    (trig : List ℚ → List Vec3 → ℚ → Vec3) (series : SatPositionSeries)
    (st : PosState) (t : ℚ) :
    updateSatPosition N ti trig series st t = invalidatePos st ∨
    (∃ st0, updateSatPosition N ti trig series st t
        = finishPosState N ti trig series st0 t) := by
  unfold updateSatPosition
  split_ifs
  · exact Or.inl rfl
  · exact Or.inl rfl
  · exact Or.inr ⟨_, rfl⟩
  · exact Or.inr ⟨_, rfl⟩

lemma setUpClock_shape (N : ℕ) (ti : ℚ) (series : SatClockSeries) (t : ℚ) :
    (∃ i, setUpSatClock N ti series t = emptyClockState i) ∨
    (∃ st0, setUpSatClock N ti series t
        = finishClockState N ti series st0 t) := by
  unfold setUpSatClock
  split_ifs
  · exact Or.inl ⟨0, rfl⟩
  · exact Or.inl ⟨_, rfl⟩
  · exact Or.inl ⟨_, rfl⟩
  · exact Or.inr ⟨_, rfl⟩

lemma updateClock_shape (N : ℕ) (ti : ℚ) (series : SatClockSeries)
    (st : ClockState) (t : ℚ) :
    updateSatClock N ti series st t = invalidateClock st ∨
    (∃ st0, updateSatClock N ti series st t
        = finishClockState N ti series st0 t) := by
  unfold updateSatClock
  split_ifs
  · exact Or.inl rfl
  · exact Or.inl rfl
  · exact Or.inr ⟨_, rfl⟩
  · exact Or.inr ⟨_, rfl⟩

/-- C1: after any `SetUp` or `Update` of either track, every satellite whose
validity flag is true has an interpolation window holding exactly
`interpolation_number` samples, spanning at most
`time_interval * (N - 1 + 3)` (position) or `time_interval * (N - 1)` (clock)
plus the 1e-4 s tolerance, with the nearest sample within `time_interval` of
the query time; whenever one of these fails the flag is false (this statement
is its contrapositive). -/
theorem gnss_window_validity_invariant :
    (∀ (N : ℕ) (ti : ℚ) (trig : List ℚ → List Vec3 → ℚ → Vec3)
      (series : SatPositionSeries) (t : ℚ),
      (setUpSatPosition N ti trig series t).valid = true →
      (setUpSatPosition N ti trig series t).timePeriodList.length = N ∧
      (setUpSatPosition N ti trig series t).timePeriodList.getLast?.getD 0 -
          (setUpSatPosition N ti trig series t).timePeriodList.head?.getD 0 ≤
        ti * ((N : ℚ) - 1 + 3) + 1 / 10000 ∧
      |t - series.unixTimeList.getD
          (setUpSatPosition N ti trig series t).nearestIndex 0| ≤ ti) ∧
    (∀ (N : ℕ) (ti : ℚ) (trig : List ℚ → List Vec3 → ℚ → Vec3)
      (series : SatPositionSeries) (st : PosState) (t : ℚ),
      (updateSatPosition N ti trig series st t).valid = true →
      (updateSatPosition N ti trig series st t).timePeriodList.length = N ∧
      (updateSatPosition N ti trig series st t).timePeriodList.getLast?.getD 0 -
          (updateSatPosition N ti trig series st t).timePeriodList.head?.getD 0
        ≤ ti * ((N : ℚ) - 1 + 3) + 1 / 10000 ∧
      |t - series.unixTimeList.getD
          (updateSatPosition N ti trig series st t).nearestIndex 0| ≤ ti) ∧
    (∀ (N : ℕ) (ti : ℚ) (series : SatClockSeries) (t : ℚ),
      (setUpSatClock N ti series t).valid = true →
      (setUpSatClock N ti series t).timePeriodList.length = N ∧
      (setUpSatClock N ti series t).timePeriodList.getLast?.getD 0 -
          (setUpSatClock N ti series t).timePeriodList.head?.getD 0 ≤
        ti * ((N : ℚ) - 1) + 1 / 10000 ∧
      |t - series.unixTimeList.getD
          (setUpSatClock N ti series t).nearestIndex 0| ≤ ti) ∧
    (∀ (N : ℕ) (ti : ℚ) (series : SatClockSeries) (st : ClockState) (t : ℚ),
      (updateSatClock N ti series st t).valid = true →
      (updateSatClock N ti series st t).timePeriodList.length = N ∧
      (updateSatClock N ti series st t).timePeriodList.getLast?.getD 0 -
          (updateSatClock N ti series st t).timePeriodList.head?.getD 0 ≤
        ti * ((N : ℚ) - 1) + 1 / 10000 ∧
      |t - series.unixTimeList.getD
          (updateSatClock N ti series st t).nearestIndex 0| ≤ ti) := by
  refine ⟨?_, ?_, ?_, ?_⟩
  · intro N ti trig series t hv
    rcases setUpPos_shape N ti trig series t with ⟨i, he⟩ | ⟨st0, he, _⟩
    · rw [he] at hv
      exact absurd hv (by simp [emptyPosState])
    · rw [he] at hv ⊢
      rw [finishPos_timePeriodList, finishPos_nearestIndex]
      exact finishPos_valid_props N ti trig series st0 t hv
  · intro N ti trig series st t hv
    rcases updatePos_shape N ti trig series st t with he | ⟨st0, he⟩
    · rw [he] at hv
      exact absurd hv (by simp [invalidatePos])
    · rw [he] at hv ⊢
      rw [finishPos_timePeriodList, finishPos_nearestIndex]
      exact finishPos_valid_props N ti trig series st0 t hv
  · intro N ti series t hv
    rcases setUpClock_shape N ti series t with ⟨i, he⟩ | ⟨st0, he⟩
    · rw [he] at hv
      exact absurd hv (by simp [emptyClockState])
    · rw [he] at hv ⊢
      rw [finishClock_timePeriodList, finishClock_nearestIndex]
      exact finishClock_valid_props N ti series st0 t hv
  · intro N ti series st t hv
    rcases updateClock_shape N ti series st t with he | ⟨st0, he⟩
    · rw [he] at hv
      exact absurd hv (by simp [invalidateClock])
    · rw [he] at hv ⊢
      rw [finishClock_timePeriodList, finishClock_nearestIndex]
      exact finishClock_valid_props N ti series st0 t hv

/- The rational operations are irreducible upstream, which blocks only the
elaborator's evaluation (the kernel ignores reducibility); restoring the
default reducibility lets `decide` evaluate the concrete instances below. -/
attribute [local semireducible] Rat.add Rat.sub Rat.mul Rat.inv

/-- The all-zero interpolation kernel, for concrete instantiation. -/
def trigZero : List ℚ → List Vec3 → ℚ → Vec3 := fun _ _ _ => vzero

/-- A one-sample position series, for concrete instantiation. -/
def posSeriesW : SatPositionSeries := ⟨[0], [⟨7, 8, 9⟩], [⟨4, 5, 6⟩]⟩

/-- A one-sample clock series, for concrete instantiation. -/
def clockSeriesW : SatClockSeries := ⟨[0], [3]⟩

/-- Witness for `gnss_window_validity_invariant`: with a one-sample series,
window size 1 and query time on the sample, all four operations leave the
satellite valid and the certified window population is 1. -/
theorem gnss_window_validity_invariant_witness :
    (setUpSatPosition 1 1 trigZero posSeriesW 0).timePeriodList.length = 1 ∧
    (updateSatPosition 1 1 trigZero posSeriesW
        (setUpSatPosition 1 1 trigZero posSeriesW 0) 0).timePeriodList.length
      = 1 ∧
    (setUpSatClock 1 1 clockSeriesW 0).timePeriodList.length = 1 ∧
    (updateSatClock 1 1 clockSeriesW
        (setUpSatClock 1 1 clockSeriesW 0) 0).timePeriodList.length = 1 :=
  ⟨(gnss_window_validity_invariant.1 1 1 trigZero posSeriesW 0 (by decide)).1,
   (gnss_window_validity_invariant.2.1 1 1 trigZero posSeriesW
      (setUpSatPosition 1 1 trigZero posSeriesW 0) 0 (by decide)).1,
   (gnss_window_validity_invariant.2.2.1 1 1 clockSeriesW 0 (by decide)).1,
   (gnss_window_validity_invariant.2.2.2 1 1 clockSeriesW
      (setUpSatClock 1 1 clockSeriesW 0) 0 (by decide)).1⟩

/-- C6: a single `Update` changes the cached nearest-sample index of each
satellite by at most one, advancing by exactly one precisely when the next
sample exists and is strictly closer to the query time than the current
nearest sample; it never moves backward. -/
theorem update_nearest_index_step :
    (∀ (N : ℕ) (ti : ℚ) (trig : List ℚ → List Vec3 → ℚ → Vec3)
      (series : SatPositionSeries) (st : PosState) (t : ℚ),
      ((updateSatPosition N ti trig series st t).nearestIndex
          = st.nearestIndex ∨
        (updateSatPosition N ti trig series st t).nearestIndex
          = st.nearestIndex + 1) ∧
      ((updateSatPosition N ti trig series st t).nearestIndex
          = st.nearestIndex + 1 ↔
        (st.nearestIndex + 1 < series.unixTimeList.length ∧
          |t - series.unixTimeList.getD (st.nearestIndex + 1) 0| <
            |t - series.unixTimeList.getD st.nearestIndex 0|))) ∧
    (∀ (N : ℕ) (ti : ℚ) (series : SatClockSeries) (st : ClockState) (t : ℚ),
      ((updateSatClock N ti series st t).nearestIndex = st.nearestIndex ∨
        (updateSatClock N ti series st t).nearestIndex
          = st.nearestIndex + 1) ∧
      ((updateSatClock N ti series st t).nearestIndex
          = st.nearestIndex + 1 ↔
        (st.nearestIndex + 1 < series.unixTimeList.length ∧
          |t - series.unixTimeList.getD (st.nearestIndex + 1) 0| <
            |t - series.unixTimeList.getD st.nearestIndex 0|))) := by
  constructor
  · intro N ti trig series st t
    unfold updateSatPosition
    split_ifs with h1 h2 h3
    · refine ⟨Or.inl rfl, ?_, ?_⟩
      · intro h
        exact absurd (show st.nearestIndex = st.nearestIndex + 1 from h)
          (by omega)
      · intro h
        exact absurd h.1 (by omega)
    · refine ⟨Or.inl rfl, ?_, ?_⟩
      · intro h
        exact absurd (show st.nearestIndex = st.nearestIndex + 1 from h)
          (by omega)
      · intro h
        exact absurd h.1 (by omega)
    · rw [finishPos_nearestIndex]
      exact ⟨Or.inr rfl, fun _ => h3, fun _ => rfl⟩
    · rw [finishPos_nearestIndex]
      refine ⟨Or.inl rfl, ?_, fun h => absurd h h3⟩
      intro h
      exact absurd (show st.nearestIndex = st.nearestIndex + 1 from h)
        (by omega)
  · intro N ti series st t
    unfold updateSatClock
    split_ifs with h1 h2 h3
    · refine ⟨Or.inl rfl, ?_, ?_⟩
      · intro h
        exact absurd (show st.nearestIndex = st.nearestIndex + 1 from h)
          (by omega)
      · intro h
        exact absurd h.1 (by omega)
    · refine ⟨Or.inl rfl, ?_, ?_⟩
      · intro h
        exact absurd (show st.nearestIndex = st.nearestIndex + 1 from h)
          (by omega)
      · intro h
        exact absurd h.1 (by omega)
    · rw [finishClock_nearestIndex]
      exact ⟨Or.inr rfl, fun _ => h3, fun _ => rfl⟩
    · rw [finishClock_nearestIndex]
      refine ⟨Or.inl rfl, ?_, fun h => absurd h h3⟩
      intro h
      exact absurd (show st.nearestIndex = st.nearestIndex + 1 from h)
        (by omega)

/-- C8: whenever a satellite is valid after `SetUp` or `Update` and the query
time is within 1e-4 s of the nearest stored sample's timestamp, the reported
ECEF position, ECI position and clock offset are exactly the stored sample's
values, taken from the series without invoking the interpolation kernel (the
position statements hold for every kernel `trig`). -/
theorem exact_sample_branch :
    (∀ (N : ℕ) (ti : ℚ) (trig : List ℚ → List Vec3 → ℚ → Vec3)
      (series : SatPositionSeries) (t : ℚ),
      (setUpSatPosition N ti trig series t).valid = true →
      |t - series.unixTimeList.getD
          (setUpSatPosition N ti trig series t).nearestIndex 0| < 1 / 10000 →
      (setUpSatPosition N ti trig series t).positionEcef
          = series.ecefSeries.getD
            (setUpSatPosition N ti trig series t).nearestIndex vzero ∧
      (setUpSatPosition N ti trig series t).positionEci
          = series.eciSeries.getD
            (setUpSatPosition N ti trig series t).nearestIndex vzero) ∧
    (∀ (N : ℕ) (ti : ℚ) (trig : List ℚ → List Vec3 → ℚ → Vec3)
      (series : SatPositionSeries) (st : PosState) (t : ℚ),
      (updateSatPosition N ti trig series st t).valid = true →
      |t - series.unixTimeList.getD
          (updateSatPosition N ti trig series st t).nearestIndex 0|
        < 1 / 10000 →
      (updateSatPosition N ti trig series st t).positionEcef
          = series.ecefSeries.getD
            (updateSatPosition N ti trig series st t).nearestIndex vzero ∧
      (updateSatPosition N ti trig series st t).positionEci
          = series.eciSeries.getD
            (updateSatPosition N ti trig series st t).nearestIndex vzero) ∧
    (∀ (N : ℕ) (ti : ℚ) (series : SatClockSeries) (t : ℚ),
      (setUpSatClock N ti series t).valid = true →
      |t - series.unixTimeList.getD
          (setUpSatClock N ti series t).nearestIndex 0| < 1 / 10000 →
      (setUpSatClock N ti series t).clockOffset
          = series.clockSeries.getD
            (setUpSatClock N ti series t).nearestIndex 0) ∧
    (∀ (N : ℕ) (ti : ℚ) (series : SatClockSeries) (st : ClockState) (t : ℚ),
      (updateSatClock N ti series st t).valid = true →
      |t - series.unixTimeList.getD
          (updateSatClock N ti series st t).nearestIndex 0| < 1 / 10000 →
      (updateSatClock N ti series st t).clockOffset
          = series.clockSeries.getD
            (updateSatClock N ti series st t).nearestIndex 0) := by
  refine ⟨?_, ?_, ?_, ?_⟩
  · intro N ti trig series t hv hx
    rcases setUpPos_shape N ti trig series t with ⟨i, he⟩ | ⟨st0, he, _⟩
    · rw [he] at hv
      exact absurd hv (by simp [emptyPosState])
    · rw [he] at hv hx ⊢
      rw [finishPos_nearestIndex] at hx ⊢
      exact finishPos_exact N ti trig series st0 t hv hx
  · intro N ti trig series st t hv hx
    rcases updatePos_shape N ti trig series st t with he | ⟨st0, he⟩
    · rw [he] at hv
      exact absurd hv (by simp [invalidatePos])
    · rw [he] at hv hx ⊢
      rw [finishPos_nearestIndex] at hx ⊢
      exact finishPos_exact N ti trig series st0 t hv hx
  · intro N ti series t hv hx
    rcases setUpClock_shape N ti series t with ⟨i, he⟩ | ⟨st0, he⟩
    · rw [he] at hv
      exact absurd hv (by simp [emptyClockState])
    · rw [he] at hv hx ⊢
      rw [finishClock_nearestIndex] at hx ⊢
      exact finishClock_exact N ti series st0 t hv hx
  · intro N ti series st t hv hx
    rcases updateClock_shape N ti series st t with he | ⟨st0, he⟩
    · rw [he] at hv
      exact absurd hv (by simp [invalidateClock])
    · rw [he] at hv hx ⊢
      rw [finishClock_nearestIndex] at hx ⊢
      exact finishClock_exact N ti series st0 t hv hx

/-- Witness for `exact_sample_branch`: the query time sits on the stored
sample, and the reported values are the stored ones. -/
theorem exact_sample_branch_witness :
    (setUpSatPosition 1 1 trigZero posSeriesW 0).positionEcef
        = posSeriesW.ecefSeries.getD
          (setUpSatPosition 1 1 trigZero posSeriesW 0).nearestIndex vzero ∧
    (updateSatPosition 1 1 trigZero posSeriesW
        (setUpSatPosition 1 1 trigZero posSeriesW 0) 0).positionEcef
        = posSeriesW.ecefSeries.getD
          (updateSatPosition 1 1 trigZero posSeriesW
            (setUpSatPosition 1 1 trigZero posSeriesW 0) 0).nearestIndex
          vzero ∧
    (setUpSatClock 1 1 clockSeriesW 0).clockOffset
        = clockSeriesW.clockSeries.getD
          (setUpSatClock 1 1 clockSeriesW 0).nearestIndex 0 ∧
    (updateSatClock 1 1 clockSeriesW
        (setUpSatClock 1 1 clockSeriesW 0) 0).clockOffset
        = clockSeriesW.clockSeries.getD
          (updateSatClock 1 1 clockSeriesW
            (setUpSatClock 1 1 clockSeriesW 0) 0).nearestIndex 0 :=
  ⟨(exact_sample_branch.1 1 1 trigZero posSeriesW 0 (by decide) (by decide)).1,
   (exact_sample_branch.2.1 1 1 trigZero posSeriesW
      (setUpSatPosition 1 1 trigZero posSeriesW 0) 0 (by decide)
      (by decide)).1,
   exact_sample_branch.2.2.1 1 1 clockSeriesW 0 (by decide) (by decide),
   exact_sample_branch.2.2.2 1 1 clockSeriesW
      (setUpSatClock 1 1 clockSeriesW 0) 0 (by decide) (by decide)⟩

/-! ### Claim about the ionospheric delay model -/

/-- A `some true` validity verdict implies the id passed the count guard. -/
lemma gnss_valid_true_not_ge (g : GnssSatellites) (id : ℤ)
    (hv : GnssSatellites.GetWhetherValid g id = some true) :
    ¬ GnssSatellites.GetNumberOfSatellites g ≤ id := by
  intro hn
  unfold GnssSatellites.GetWhetherValid at hv
  rw [if_pos hn] at hv
  exact absurd hv (by simp)

/-- Above 1000 km the delay is exactly zero. -/
lemma addIono_zero_above (F : RealFuns) (g : GnssSatellites) (id : ℤ)
    (rec_position : Vec3) (frequency : ℚ) (flag : GnssFrameDefinition)
    (hv : GnssSatellites.GetWhetherValid g id = some true)
    (ha : 1000 ≤ receiverAltitudeKm F rec_position) :
    GnssSatellites.AddIonosphericDelay F g id rec_position frequency flag
      = some 0 := by
  have hn := gnss_valid_true_not_ge g id hv
  simp [GnssSatellites.AddIonosphericDelay, hn, hv, ha]

/-- Below 1000 km the delay is the linear-in-altitude baseline, slanted by
the line-of-sight cosine and scaled inverse-square in frequency. -/
lemma addIono_formula (F : RealFuns) (g : GnssSatellites) (id : ℤ)
    (rec_position : Vec3) (frequency : ℚ) (flag : GnssFrameDefinition)
    (p : Vec3)
    (hv : GnssSatellites.GetWhetherValid g id = some true)
    (hp : trueSatellitePositionOf g flag id = some p)
    (ha : receiverAltitudeKm F rec_position < 1000) :
    GnssSatellites.AddIonosphericDelay F g id rec_position frequency flag
      = some (20 * (1000 - receiverAltitudeKm F rec_position) / 1000 /
          F.cosAngleQ rec_position (vsub p rec_position) *
          (1500 / frequency) ^ 2) := by
  have hn := gnss_valid_true_not_ge g id hv
  simp [GnssSatellites.AddIonosphericDelay, hn, hv, hp, not_le.mpr ha]

/-- C7: for every valid satellite and receiver position, `AddIonosphericDelay`
is exactly 0 at or above 1000 km altitude; below it equals the 20 m baseline
scaled by `(1000 - altitude_km)/1000`, divided by the line-of-sight cosine and
multiplied by `(1500/frequency)^2`; doubling the frequency quarters the delay,
and the delay is strictly decreasing in altitude on `[0, 1000)` (at a fixed
positive line-of-sight cosine and positive frequency). -/
theorem ionospheric_delay_properties :
    (∀ (F : RealFuns) (g : GnssSatellites) (id : ℤ) (rec_position : Vec3)
      (frequency : ℚ) (flag : GnssFrameDefinition),
      GnssSatellites.GetWhetherValid g id = some true →
      1000 ≤ receiverAltitudeKm F rec_position →
      GnssSatellites.AddIonosphericDelay F g id rec_position frequency flag
        = some 0) ∧
    (∀ (F : RealFuns) (g : GnssSatellites) (id : ℤ) (rec_position : Vec3)
      (frequency : ℚ) (flag : GnssFrameDefinition) (p : Vec3),
      GnssSatellites.GetWhetherValid g id = some true →
      trueSatellitePositionOf g flag id = some p →
      receiverAltitudeKm F rec_position < 1000 →
      GnssSatellites.AddIonosphericDelay F g id rec_position frequency flag
        = some (20 * (1000 - receiverAltitudeKm F rec_position) / 1000 /
            F.cosAngleQ rec_position (vsub p rec_position) *
            (1500 / frequency) ^ 2)) ∧
    (∀ (F : RealFuns) (g : GnssSatellites) (id : ℤ) (rec_position : Vec3)
      (frequency : ℚ) (flag : GnssFrameDefinition),
      GnssSatellites.AddIonosphericDelay F g id rec_position (2 * frequency)
          flag
        = Option.map (fun d => d / 4)
            (GnssSatellites.AddIonosphericDelay F g id rec_position frequency
              flag)) ∧
    (∀ (F : RealFuns) (g : GnssSatellites) (id : ℤ) (rec1 rec2 : Vec3)
      (frequency : ℚ) (flag : GnssFrameDefinition) (p : Vec3) (c : ℚ),
      GnssSatellites.GetWhetherValid g id = some true →
      trueSatellitePositionOf g flag id = some p →
      F.cosAngleQ rec1 (vsub p rec1) = c →
      F.cosAngleQ rec2 (vsub p rec2) = c →
      0 < c → 0 < frequency →
      0 ≤ receiverAltitudeKm F rec1 →
      receiverAltitudeKm F rec1 < receiverAltitudeKm F rec2 →
      receiverAltitudeKm F rec2 < 1000 →
      ∃ d1 d2,
        GnssSatellites.AddIonosphericDelay F g id rec1 frequency flag
          = some d1 ∧
        GnssSatellites.AddIonosphericDelay F g id rec2 frequency flag
          = some d2 ∧
        d2 < d1) := by
  refine ⟨addIono_zero_above, addIono_formula, ?_, ?_⟩
  · intro F g id rec_position frequency flag
    unfold GnssSatellites.AddIonosphericDelay
    by_cases hn : GnssSatellites.GetNumberOfSatellites g ≤ id
    · rw [if_pos hn, if_pos hn]
      simp
    · rw [if_neg hn, if_neg hn]
      cases hv : GnssSatellites.GetWhetherValid g id with
      | none => simp
      | some v =>
        cases v with
        | false => simp
        | true =>
          by_cases ha : 1000 ≤ receiverAltitudeKm F rec_position
          · simp [ha]
          · cases hp : trueSatellitePositionOf g flag id with
            | none => simp [ha, hp]
            | some p =>
              rcases eq_or_ne frequency 0 with h0 | h0
              · subst h0
                simp [ha, hp]
              · simp only [ha, hp, Bool.not_true, Bool.false_eq_true,
                  if_false, Option.map_some, Option.some.injEq]
                field_simp
                ring
  · intro F g id rec1 rec2 frequency flag p c hv hp hc1 hc2 hcpos hfpos ha0
      h12 ha2
    have ha1 : receiverAltitudeKm F rec1 < 1000 := lt_trans h12 ha2
    refine ⟨_, _, addIono_formula F g id rec1 frequency flag p hv hp ha1,
      addIono_formula F g id rec2 frequency flag p hv hp ha2, ?_⟩
    rw [hc1, hc2]
    have hk : (0 : ℚ) < (1500 / frequency) ^ 2 :=
      pow_pos (div_pos (by norm_num) hfpos) 2
    have hpos : (0 : ℚ) < 20 / 1000 / c * (1500 / frequency) ^ 2 :=
      mul_pos (div_pos (by norm_num) hcpos) hk
    have key : ∀ a : ℚ, 20 * (1000 - a) / 1000 / c * (1500 / frequency) ^ 2
        = 20 / 1000 / c * (1500 / frequency) ^ 2 * (1000 - a) := by
      intro a
      ring
    rw [key, key]
    exact mul_lt_mul_of_pos_left (by linarith) hpos

/-- An all-valid one-satellite facade state, for concrete instantiation. -/
def gAllTrue : GnssSatellites :=
  ⟨⟨⟨[true], [⟨1, 2, 3⟩], [⟨1, 2, 3⟩]⟩, ⟨[true], [5]⟩⟩,
   ⟨⟨[true], [⟨1, 2, 3⟩], [⟨1, 2, 3⟩]⟩, ⟨[true], [5]⟩⟩⟩

/-- A concrete interpretation of the transcendental calls giving receiver
altitudes 0 km, 500 km and 1000 km to the three probe positions. -/
def FW : RealFuns :=
  ⟨fun q =>
    if q = 1 then 63781366 / 10
    else if q = 4 then 63781366 / 10 + 500000
    else if q = 9 then 63781366 / 10 + 1000000
    else 0,
   fun _ _ => 1⟩

/-- Witness for `ionospheric_delay_properties` at concrete inputs. -/
theorem ionospheric_delay_properties_witness :
    GnssSatellites.AddIonosphericDelay FW gAllTrue 0 ⟨3, 0, 0⟩ 1500
        GnssFrameDefinition.kEcef = some 0 ∧
    GnssSatellites.AddIonosphericDelay FW gAllTrue 0 ⟨2, 0, 0⟩ 1500
        GnssFrameDefinition.kEcef
      = some (20 * (1000 - receiverAltitudeKm FW ⟨2, 0, 0⟩) / 1000 /
          FW.cosAngleQ ⟨2, 0, 0⟩ (vsub ⟨1, 2, 3⟩ ⟨2, 0, 0⟩) *
          (1500 / 1500) ^ 2) ∧
    GnssSatellites.AddIonosphericDelay FW gAllTrue 0 ⟨2, 0, 0⟩ (2 * 1500)
        GnssFrameDefinition.kEcef
      = Option.map (fun d => d / 4)
          (GnssSatellites.AddIonosphericDelay FW gAllTrue 0 ⟨2, 0, 0⟩ 1500
            GnssFrameDefinition.kEcef) ∧
    (∃ d1 d2,
      GnssSatellites.AddIonosphericDelay FW gAllTrue 0 ⟨1, 0, 0⟩ 1500
          GnssFrameDefinition.kEcef = some d1 ∧
      GnssSatellites.AddIonosphericDelay FW gAllTrue 0 ⟨2, 0, 0⟩ 1500
          GnssFrameDefinition.kEcef = some d2 ∧
      d2 < d1) :=
  ⟨ionospheric_delay_properties.1 FW gAllTrue 0 ⟨3, 0, 0⟩ 1500
      GnssFrameDefinition.kEcef (by decide) (by decide),
   ionospheric_delay_properties.2.1 FW gAllTrue 0 ⟨2, 0, 0⟩ 1500
      GnssFrameDefinition.kEcef ⟨1, 2, 3⟩ (by decide) (by decide) (by decide),
   ionospheric_delay_properties.2.2.1 FW gAllTrue 0 ⟨2, 0, 0⟩ 1500
      GnssFrameDefinition.kEcef,
   ionospheric_delay_properties.2.2.2 FW gAllTrue 0 ⟨1, 0, 0⟩ ⟨2, 0, 0⟩ 1500
      GnssFrameDefinition.kEcef ⟨1, 2, 3⟩ 1 (by decide) (by decide) (by decide)
      (by decide) (by decide) (by decide) (by decide) (by decide) (by decide)⟩

/-! ### Claim about the ingestion merge -/

/-- After a merge step the last stored timestamp is the incoming one, whether
it was appended or overwrote the back. -/
lemma mergeSample_getLast {α : Type} (threshold : ℚ) (ts : TimeSeries α)
    (t : ℚ) (v : α) :
    (mergeSample threshold ts t v).unix_time_list.getLast? = some t := by
  unfold mergeSample
  cases h : ts.unix_time_list.getLast? with
  | none => simp [List.getLast?_concat]
  | some back =>
    dsimp only
    split_ifs with hlt <;> simp [List.getLast?_concat]

/-- One merge step preserves strictly increasing timestamps, provided the
incoming timestamp is at least the last stored one. -/
lemma mergeSample_chain_lt {α : Type} (threshold : ℚ) (hth : 0 < threshold)
    (ts : TimeSeries α) (t : ℚ) (v : α)
    (hc : List.Chain' (fun a b => a < b) ts.unix_time_list)
    (hb : ∀ b, ts.unix_time_list.getLast? = some b → b ≤ t) :
    List.Chain' (fun a b => a < b)
      (mergeSample threshold ts t v).unix_time_list := by
  unfold mergeSample
  cases h : ts.unix_time_list.getLast? with
  | none =>
    have he : ts.unix_time_list = [] := List.getLast?_eq_none_iff.mp h
    simp [he]
  | some back =>
    have hbt : back ≤ t := hb back h
    have hne : ts.unix_time_list ≠ [] := by
      intro he
      rw [he] at h
      simp at h
    dsimp only
    split_ifs with hlt
    · have hbeq : ts.unix_time_list.getLast hne = back := by
        have h2 := List.getLast?_eq_getLast ts.unix_time_list hne
        rw [h2] at h
        exact Option.some.inj h
      have hsplit := List.dropLast_append_getLast hne
      rw [hbeq] at hsplit
      have hc2 : List.Chain' (fun a b => a < b)
          (ts.unix_time_list.dropLast ++ [back]) := by
        rw [hsplit]
        exact hc
      rcases List.chain'_append.mp hc2 with ⟨hc1, _, hlast⟩
      refine List.chain'_append.mpr ⟨hc1, List.chain'_singleton t, ?_⟩
      intro x hx y hy
      simp only [List.head?_cons, Option.mem_def, Option.some.injEq] at hy
      subst hy
      exact lt_of_lt_of_le (hlast x hx back rfl) hbt
    · have hth2 : threshold ≤ |t - back| := not_lt.mp hlt
      have hbt' : back < t := by
        rcases le_or_lt 0 (t - back) with h0 | h0
        · rw [abs_of_nonneg h0] at hth2
          linarith
        · linarith
      refine List.chain'_append.mpr ⟨hc, List.chain'_singleton t, ?_⟩
      intro x hx y hy
      simp only [List.head?_cons, Option.mem_def, Option.some.injEq] at hy
      subst hy
      rw [h] at hx
      simp only [Option.mem_def, Option.some.injEq] at hx
      subst hx
      exact hbt'

/-- Folding the merge step over a non-decreasing sample stream keeps the
stored timestamps strictly increasing. -/
lemma ingest_fold_chain {α : Type} (threshold : ℚ) (hth : 0 < threshold) :
    ∀ (samples : List (ℚ × α)) (ts : TimeSeries α),
      List.Chain' (fun a b => a < b) ts.unix_time_list →
      List.Chain' (fun a b => a ≤ b) (samples.map Prod.fst) →
      (∀ b, ts.unix_time_list.getLast? = some b →
        ∀ s, samples.head? = some s → b ≤ s.1) →
      List.Chain' (fun a b => a < b)
        ((samples.foldl (fun acc tv => mergeSample threshold acc tv.1 tv.2)
          ts).unix_time_list) := by
  intro samples
  induction samples with
  | nil =>
    intro ts hc _ _
    exact hc
  | cons s rest ih =>
    intro ts hc hmono hle
    rw [List.foldl_cons]
    apply ih
    · exact mergeSample_chain_lt threshold hth ts s.1 s.2 hc
        (fun b hb => hle b hb s rfl)
    · rw [List.map_cons] at hmono
      exact (List.chain'_cons'.mp hmono).2
    · intro b hb s2 hs2
      rw [mergeSample_getLast] at hb
      obtain rfl : s.1 = b := Option.some.inj hb
      rw [List.map_cons] at hmono
      exact (List.chain'_cons'.mp hmono).1 s2.1
        (by rw [List.head?_map, hs2]; rfl)

/-- C9 counterexample: (a) an out-of-order sample stream (10 s then 0 s)
ingested by the 1-second merge leaves a non-increasing timestamp list, and
(b) the .clk30s clock merge appends — rather than overwrites — a sample only
half a second after the last stored one, because its threshold is 1e-4 s. -/
theorem ingest_order_counterexample :
    (¬ List.Chain' (fun a b => a < b)
      (ingestSamples 1 [((10 : ℚ), (0 : ℚ)), (0, 0)]).unix_time_list) ∧
    (clockClk30sMerge ⟨[0], [0]⟩ 1000000000 (1 / 2) 0).1.unix_time_list
      = [0, 1 / 2] := by
  constructor
  · intro hchain
    have he : (ingestSamples 1
        [((10 : ℚ), (0 : ℚ)), (0, 0)]).unix_time_list = [10, 0] := by decide
    rw [he] at hchain
    have hlt := (List.chain'_cons.mp hchain).1
    norm_num at hlt
  · decide

/-- C9 (amended): for the position product and the sp3-format clock product,
a newly parsed sample whose timestamp is within 1 second of the last stored
timestamp overwrites the last stored sample (timestamp and value) instead of
being appended; and for any positive merge threshold, provided each
satellite's parsed timestamps arrive in non-decreasing order (as in
chronological product files), the stored timestamp list is strictly
increasing after ingestion. -/
theorem ingest_merge_amended :
    (∀ (ts : TimeSeries (Vec3 × Vec3)) (t : ℚ) (v : Vec3 × Vec3) (b : ℚ),
      ts.unix_time_list.getLast? = some b → |t - b| < 1 →
      positionInitializeMerge ts t v =
        ⟨ts.unix_time_list.dropLast ++ [t], ts.values.dropLast ++ [v]⟩) ∧
    (∀ (ts : TimeSeries ℚ) (t v b : ℚ),
      ts.unix_time_list.getLast? = some b → |t - b| < 1 →
      clockSp3InitializeMerge ts t v =
        ⟨ts.unix_time_list.dropLast ++ [t], ts.values.dropLast ++ [v]⟩) ∧
    (∀ (α : Type) (threshold : ℚ) (samples : List (ℚ × α)),
      0 < threshold →
      List.Chain' (fun a b => a ≤ b) (samples.map Prod.fst) →
      List.Chain' (fun a b => a < b)
        (ingestSamples threshold samples).unix_time_list) := by
  refine ⟨?_, ?_, ?_⟩
  · intro ts t v b hb hlt
    simp only [positionInitializeMerge, mergeSample, hb]
    rw [if_pos hlt]
  · intro ts t v b hb hlt
    simp only [clockSp3InitializeMerge, mergeSample, hb]
    rw [if_pos hlt]
  · intro α threshold samples hth hmono
    unfold ingestSamples
    apply ingest_fold_chain threshold hth samples ⟨[], []⟩
      List.chain'_nil hmono
    intro b hb s hs
    simp at hb

/-- Witness for `ingest_merge_amended`: a sample half a second after the last
stored one overwrites it on both sp3 paths, and an ordered two-sample stream
ingests to a strictly increasing list. -/
theorem ingest_merge_amended_witness :
    positionInitializeMerge ⟨[0], [(vzero, vzero)]⟩ (1 / 2) (vzero, vzero)
      = ⟨[1 / 2], [(vzero, vzero)]⟩ ∧
    clockSp3InitializeMerge ⟨[0], [5]⟩ (1 / 2) 7 = ⟨[1 / 2], [7]⟩ ∧
    List.Chain' (fun a b => a < b)
      (ingestSamples 1 [((0 : ℚ), (5 : ℚ)), (2, 6)]).unix_time_list :=
  ⟨ingest_merge_amended.1 ⟨[0], [(vzero, vzero)]⟩ (1 / 2) (vzero, vzero) 0
      (by decide) (by decide),
   ingest_merge_amended.2.1 ⟨[0], [5]⟩ (1 / 2) 7 0 (by decide) (by decide),
   ingest_merge_amended.2.2 ℚ 1 [((0 : ℚ), (5 : ℚ)), (2, 6)] (by decide)
      (List.chain'_cons.mpr ⟨by decide, List.chain'_singleton 2⟩)⟩

end S2E
